import Mathlib

/-!
Verification of the OMI `X_OddSmallNumbers` demo provider
(`Unix/samples/Providers/Demo-i2/X_OddSmallNumbers_Class_Provider.cpp`).

The provider is embedded shallowly: every entry point becomes a pure Lean
function from its arguments to the ordered list of `context.Post(...)` events
it performs.  An MI instance handle (`MI_Instance*`) is modelled as a record
carrying the two runtime-type predicates (`X_SmallNumber_IsA`,
`X_NumberWorld_IsA`) together with the key attribute visible under each typed
view.  Key attributes carry the MI presence flag (`.exists`, rendered here as
`exists_` since `exists` is a Lean keyword) next to their value.  `Uint64` is
modelled as `Nat`: the code performs no arithmetic that could overflow (it only
reads the key and takes it modulo 2).
-/

/-- The subset of MI result codes used by the provider. -/
inductive MIResult where
  | OK
  | FAILED
  | NOT_SUPPORTED
deriving DecidableEq, Repr

/-- An MI key attribute: presence flag plus value, as in the generated
`Field<T>` type (`.exists` / `.value`). -/
structure MIField (α : Type) where
  exists_ : Bool
  value : α
deriving DecidableEq, Repr

/-- Typed view of an `X_SmallNumber` instance: one `Uint64` key `Number`. -/
structure X_SmallNumber_Class where
  Number : MIField Nat
deriving DecidableEq, Repr

/-- Typed view of an `X_NumberWorld` instance: one string key `Name`. -/
structure X_NumberWorld_Class where
  Name : MIField String
deriving DecidableEq, Repr

/-- The association class `X_OddSmallNumbers` (only ever received by stub
operations, which ignore it). -/
structure X_OddSmallNumbers_Class where
  data : Nat
deriving DecidableEq, Repr

/-- A property-selection set; accepted but never interpreted by the provider. -/
structure PropertySet where
  names : List String
deriving DecidableEq, Repr

/-- An opaque `MI_Filter`; accepted but never interpreted by the provider. -/
structure MI_Filter where
  id : Nat
deriving DecidableEq, Repr

/-- An opaque `MI_Instance*` handle: the two runtime-type predicates that the
dispatcher consults, plus the key attribute obtained under each typed cast. -/
structure MIInstanceHandle where
  isSmallNumber : Bool
  isNumberWorld : Bool
  Number : MIField Nat
  Name : MIField String
deriving DecidableEq, Repr

/-- `X_SmallNumber_IsA(instanceName)`. -/
def X_SmallNumber_IsA (h : MIInstanceHandle) : Bool :=
  h.isSmallNumber

/-- `X_NumberWorld_IsA(instanceName)`. -/
def X_NumberWorld_IsA (h : MIInstanceHandle) : Bool :=
  h.isNumberWorld

/-- The cast `X_SmallNumber_Class((const X_SmallNumber*)instanceName, true)`. -/
def toX_SmallNumber_Class (h : MIInstanceHandle) : X_SmallNumber_Class :=
  ⟨h.Number⟩

/-- The cast `X_NumberWorld_Class((const X_NumberWorld*)instanceName, true)`. -/
def toX_NumberWorld_Class (h : MIInstanceHandle) : X_NumberWorld_Class :=
  ⟨h.Name⟩

/-- An instance posted to the context: either typed view. -/
inductive MIInstance where
  | smallNumber (inst : X_SmallNumber_Class)
  | numberWorld (inst : X_NumberWorld_Class)
deriving DecidableEq, Repr

/-- One `context.Post(...)` call: either an instance or a result status. -/
inductive Event where
  | postInstance (inst : MIInstance)
  | postResult (r : MIResult)
deriving DecidableEq, Repr

/-- Modelled from the spec: `FillNumberByKey` is declared in
`X_OddSmallNumbers_Class_Provider.cpp` but its body lives outside the sources
given here.  Per the spec (§4.4 step 4) it constructs the EntityA instance
whose `Number` key is `key`. -/
def FillNumberByKey (key : Nat) : X_SmallNumber_Class :=
  ⟨⟨true, key⟩⟩

/-- Modelled from the spec: `GetNumberWorld` is declared in
`X_OddSmallNumbers_Class_Provider.cpp` but its body lives outside the sources
given here.  Per the spec (§3, §4.3 step 4) it returns the EntityB singleton
with `Name = "theWorld"`. -/
def GetNumberWorld (ns : String) : X_NumberWorld_Class :=
  ⟨⟨true, "theWorld"⟩⟩

/-- `EnumerateInstances`: posts `MI_RESULT_NOT_SUPPORTED`. -/
def EnumerateInstances (nameSpace : String) (propertySet : PropertySet)
    (keysOnly : Bool) (filter : Option MI_Filter) : List Event :=
  [Event.postResult MIResult.NOT_SUPPORTED]

/-- `GetInstance`: posts `MI_RESULT_NOT_SUPPORTED`. -/
def GetInstance (nameSpace : String) (instance_ref : X_OddSmallNumbers_Class)
    (propertySet : PropertySet) : List Event :=
  [Event.postResult MIResult.NOT_SUPPORTED]

/-- `CreateInstance`: posts `MI_RESULT_NOT_SUPPORTED`. -/
def CreateInstance (nameSpace : String)
    (new_instance : X_OddSmallNumbers_Class) : List Event :=
  [Event.postResult MIResult.NOT_SUPPORTED]

/-- `ModifyInstance`: posts `MI_RESULT_NOT_SUPPORTED`. -/
def ModifyInstance (nameSpace : String)
    (new_instance : X_OddSmallNumbers_Class)
    (propertySet : PropertySet) : List Event :=
  [Event.postResult MIResult.NOT_SUPPORTED]

/-- `DeleteInstance`: posts `MI_RESULT_NOT_SUPPORTED`. -/
def DeleteInstance (nameSpace : String)
    (instance_ref : X_OddSmallNumbers_Class) : List Event :=
  [Event.postResult MIResult.NOT_SUPPORTED]

/-- `AssocOfSmallNumber`: the EntityA-direction resolver.  If the `Number` key
is missing, post `FAILED`; otherwise post the `GetNumberWorld` singleton when
`num % 2 == 1` and both role filters accept, then post `OK`. -/
def AssocOfSmallNumber (instanceName : X_SmallNumber_Class)
    (resultClass role resultRole : String) (propertySet : PropertySet)
    (keysOnly : Bool) (filter : Option MI_Filter) : List Event :=
  if !instanceName.Number.exists_ then
    [Event.postResult MIResult.FAILED]
  else
    let num := instanceName.Number.value
    (if num % 2 == 1
        && (role == "" || role == "number")
        && (resultRole == "" || resultRole == "world") then
      [Event.postInstance (MIInstance.numberWorld (GetNumberWorld ""))]
    else
      []) ++ [Event.postResult MIResult.OK]

/-- `AssocOfNumberWorld`: the EntityB-direction resolver.  If the `Name` key is
missing, post `FAILED`; otherwise, when the name is `"theWorld"` and both role
filters accept, post `FillNumberByKey i` for each `i` in `[0, 10000)` in
ascending order, skipping even `i` (`continue`), then post `OK`. -/
def AssocOfNumberWorld (instanceName : X_NumberWorld_Class)
    (resultClass role resultRole : String) (propertySet : PropertySet)
    (keysOnly : Bool) (filter : Option MI_Filter) : List Event :=
  if !instanceName.Name.exists_ then
    [Event.postResult MIResult.FAILED]
  else
    let name := instanceName.Name.value
    (if name == "theWorld"
        && (role == "" || role == "world")
        && (resultRole == "" || resultRole == "number") then
      (List.range 10000).filterMap (fun i =>
        if i % 2 == 0 then
          none
        else
          some (Event.postInstance (MIInstance.smallNumber (FillNumberByKey i))))
    else
      []) ++ [Event.postResult MIResult.OK]

/-- `AssociatorInstances`: dispatch on the runtime type of the source handle;
`X_SmallNumber` first, then `X_NumberWorld`, else post `FAILED`. -/
def AssociatorInstances (nameSpace : String) (instanceName : MIInstanceHandle)
    (resultClass role resultRole : String) (propertySet : PropertySet)
    (keysOnly : Bool) (filter : Option MI_Filter) : List Event :=
  if X_SmallNumber_IsA instanceName then
    AssocOfSmallNumber (toX_SmallNumber_Class instanceName)
      resultClass role resultRole propertySet keysOnly filter
  else if X_NumberWorld_IsA instanceName then
    AssocOfNumberWorld (toX_NumberWorld_Class instanceName)
      resultClass role resultRole propertySet keysOnly filter
  else
    [Event.postResult MIResult.FAILED]

/-- `ReferenceInstances`: posts `MI_RESULT_NOT_SUPPORTED`. -/
def ReferenceInstances (nameSpace : String) (instanceName : MIInstanceHandle)
    (role : String) (propertySet : PropertySet) (keysOnly : Bool)
    (filter : Option MI_Filter) : List Event :=
  [Event.postResult MIResult.NOT_SUPPORTED]

/-- `Load`: posts `MI_RESULT_OK`. -/
def Load : List Event :=
  [Event.postResult MIResult.OK]

/-- `Unload`: posts `MI_RESULT_OK`. -/
def Unload : List Event :=
  [Event.postResult MIResult.OK]

/-- Spec-side: the ascending list of the odd integers of `[0, 10000)`. -/
def oddKeys : List Nat :=
  (List.range 5000).map (fun k => 2 * k + 1)

/-- Whether an event is an instance post (as opposed to a status post). -/
def isInstancePost : Event → Bool
  | Event.postInstance _ => true
  | Event.postResult _ => false

/-- Spec-side (§4.1): the event stream is zero or more instance posts followed
by exactly one status post, which ends it. -/
def StreamsThenTerminates (es : List Event) : Prop :=
  ∃ pre r, es = pre ++ [Event.postResult r] ∧ ∀ e ∈ pre, isInstancePost e = true

lemma filterMap_range_odd (f : Nat → Event) (n : Nat) :
    (List.range (2 * n)).filterMap (fun i =>
        if i % 2 == 0 then none else some (f i)) =
      (List.range n).map (fun k => f (2 * k + 1)) := by
  induction n with
  | zero => simp
  | succ m ih =>
      have h2 : 2 * (m + 1) = 2 * m + 1 + 1 := by ring
      have heven : (2 * m) % 2 = 0 := by omega
      have hodd : (2 * m + 1) % 2 = 1 := by omega
      rw [h2, List.range_succ, List.range_succ, List.filterMap_append,
        List.filterMap_append, ih, List.range_succ, List.map_append]
      simp [heven, hodd]

lemma oddKeys_length : oddKeys.length = 5000 := by
  simp [oddKeys]

lemma oddKeys_sorted : List.Sorted (· < ·) oddKeys := by
  unfold oddKeys
  rw [List.Sorted, List.pairwise_map]
  exact (List.sorted_lt_range 5000).imp (by omega)

lemma oddKeys_nodup : oddKeys.Nodup := by
  exact oddKeys_sorted.imp (fun h => Nat.ne_of_lt h)

lemma oddKeys_mem (i : Nat) : i ∈ oddKeys ↔ i < 10000 ∧ i % 2 = 1 := by
  simp only [oddKeys, List.mem_map, List.mem_range]
  constructor
  · rintro ⟨k, hk, rfl⟩
    omega
  · rintro ⟨h1, h2⟩
    exact ⟨i / 2, by omega, by omega⟩

lemma oddKeys_posts_nodup :
    (oddKeys.map (fun i =>
        Event.postInstance (MIInstance.smallNumber (FillNumberByKey i)))).Nodup := by
  refine oddKeys_nodup.map ?_
  intro a b hab
  simpa [FillNumberByKey] using hab

/-- C1: for every EntityB instance whose `Name` key is present and equals
`"theWorld"`, with empty role and resultRole strings, `AssocOfNumberWorld`
posts exactly the 5000 EntityA instances with the odd keys of `[0, 10000)`,
each exactly once and in ascending order of key, and then posts `OK`. -/
theorem assocOfNumberWorld_theWorld_posts_all_odds
    (inst : X_NumberWorld_Class) (rc : String) (ps : PropertySet)
    (ko : Bool) (fl : Option MI_Filter)
    (hex : inst.Name.exists_ = true) (hval : inst.Name.value = "theWorld") :
    AssocOfNumberWorld inst rc "" "" ps ko fl =
        oddKeys.map (fun i =>
          Event.postInstance (MIInstance.smallNumber (FillNumberByKey i)))
          ++ [Event.postResult MIResult.OK]
      ∧ oddKeys.length = 5000
      ∧ List.Sorted (· < ·) oddKeys
      ∧ oddKeys.Nodup
      ∧ (oddKeys.map (fun i =>
          Event.postInstance (MIInstance.smallNumber (FillNumberByKey i)))).Nodup
      ∧ (∀ i : Nat, i ∈ oddKeys ↔ i < 10000 ∧ i % 2 = 1) := by
  refine ⟨?_, oddKeys_length, oddKeys_sorted, oddKeys_nodup,
    oddKeys_posts_nodup, oddKeys_mem⟩
  unfold AssocOfNumberWorld
  rw [hex]
  simp only [Bool.not_true, Bool.false_eq_true, if_false, hval]
  have hc : (("theWorld" : String) == "theWorld"
      && (("" : String) == "" || ("" : String) == "world")
      && (("" : String) == "" || ("" : String) == "number")) = true := by decide
  rw [hc]
  simp only [if_true]
  rw [show (10000 : Nat) = 2 * 5000 from rfl, filterMap_range_odd]
  unfold oddKeys
  rw [List.map_map]
  simp [Function.comp_def]

/-- Witness for C1 at the concrete singleton instance. -/
theorem assocOfNumberWorld_theWorld_posts_all_odds_witness :
    AssocOfNumberWorld ⟨⟨true, "theWorld"⟩⟩ "" "" "" ⟨[]⟩ false none =
        oddKeys.map (fun i =>
          Event.postInstance (MIInstance.smallNumber (FillNumberByKey i)))
          ++ [Event.postResult MIResult.OK] :=
  (assocOfNumberWorld_theWorld_posts_all_odds
    ⟨⟨true, "theWorld"⟩⟩ "" ⟨[]⟩ false none rfl rfl).1

/-- C2: for every EntityA instance whose `Number` key is present and odd, with
empty role and resultRole strings, `AssocOfSmallNumber` posts exactly one
EntityB instance — the singleton with `Name = "theWorld"` — and then `OK`. -/
theorem assocOfSmallNumber_odd_posts_singleton
    (inst : X_SmallNumber_Class) (rc : String) (ps : PropertySet)
    (ko : Bool) (fl : Option MI_Filter)
    (hex : inst.Number.exists_ = true) (hodd : inst.Number.value % 2 = 1) :
    AssocOfSmallNumber inst rc "" "" ps ko fl =
      [Event.postInstance (MIInstance.numberWorld ⟨⟨true, "theWorld"⟩⟩),
       Event.postResult MIResult.OK] := by
  unfold AssocOfSmallNumber
  rw [hex]
  simp only [Bool.not_true, Bool.false_eq_true, if_false]
  have hc : (inst.Number.value % 2 == 1
      && (("" : String) == "" || ("" : String) == "number")
      && (("" : String) == "" || ("" : String) == "world")) = true := by
    rw [hodd]
    decide
  rw [hc]
  rfl

/-- Witness for C2 at `Number = 3`. -/
theorem assocOfSmallNumber_odd_posts_singleton_witness :
    AssocOfSmallNumber ⟨⟨true, 3⟩⟩ "" "" "" ⟨[]⟩ false none =
      [Event.postInstance (MIInstance.numberWorld ⟨⟨true, "theWorld"⟩⟩),
       Event.postResult MIResult.OK] :=
  assocOfSmallNumber_odd_posts_singleton ⟨⟨true, 3⟩⟩ "" ⟨[]⟩ false none rfl rfl

/-- C5: in the EntityA direction, for a present odd `Number` the match succeeds
— exactly one instance is posted — iff the role is empty or exactly `"number"`
and the resultRole is empty or exactly `"world"` (case-sensitive); any other
value for either suppresses the match, posting zero instances and still `OK`. -/
theorem assocOfSmallNumber_role_filter
    (inst : X_SmallNumber_Class) (rc role resultRole : String)
    (ps : PropertySet) (ko : Bool) (fl : Option MI_Filter)
    (hex : inst.Number.exists_ = true) (hodd : inst.Number.value % 2 = 1) :
    AssocOfSmallNumber inst rc role resultRole ps ko fl =
      if (role = "" ∨ role = "number") ∧ (resultRole = "" ∨ resultRole = "world") then
        [Event.postInstance (MIInstance.numberWorld ⟨⟨true, "theWorld"⟩⟩),
         Event.postResult MIResult.OK]
      else
        [Event.postResult MIResult.OK] := by
  unfold AssocOfSmallNumber
  rw [hex]
  simp only [Bool.not_true, Bool.false_eq_true, if_false]
  have hb : (inst.Number.value % 2 == 1
      && (role == "" || role == "number")
      && (resultRole == "" || resultRole == "world")) = true ↔
      ((role = "" ∨ role = "number") ∧ (resultRole = "" ∨ resultRole = "world")) := by
    simp [hodd]
  by_cases hcond :
      (role = "" ∨ role = "number") ∧ (resultRole = "" ∨ resultRole = "world")
  · rw [if_pos hcond, if_pos (hb.mpr hcond)]
    rfl
  · rw [if_neg hcond, if_neg (fun hx => hcond (hb.mp hx))]
    rfl

/-- Witness for C5: matching roles `("number", "world")` post the singleton;
the non-matching resultRole `"World"` (wrong case) suppresses the match. -/
theorem assocOfSmallNumber_role_filter_witness :
    (AssocOfSmallNumber ⟨⟨true, 7⟩⟩ "" "number" "world" ⟨[]⟩ false none =
      if (("number" : String) = "" ∨ ("number" : String) = "number")
          ∧ (("world" : String) = "" ∨ ("world" : String) = "world") then
        [Event.postInstance (MIInstance.numberWorld ⟨⟨true, "theWorld"⟩⟩),
         Event.postResult MIResult.OK]
      else
        [Event.postResult MIResult.OK])
    ∧ (AssocOfSmallNumber ⟨⟨true, 7⟩⟩ "" "number" "World" ⟨[]⟩ false none =
      if (("number" : String) = "" ∨ ("number" : String) = "number")
          ∧ (("World" : String) = "" ∨ ("World" : String) = "world") then
        [Event.postInstance (MIInstance.numberWorld ⟨⟨true, "theWorld"⟩⟩),
         Event.postResult MIResult.OK]
      else
        [Event.postResult MIResult.OK]) :=
  ⟨assocOfSmallNumber_role_filter ⟨⟨true, 7⟩⟩ "" "number" "world" ⟨[]⟩ false none
      rfl rfl,
   assocOfSmallNumber_role_filter ⟨⟨true, 7⟩⟩ "" "number" "World" ⟨[]⟩ false none
      rfl rfl⟩

/-- C4: for an EntityA handle whose `Number` key is absent, and for an EntityB
handle whose `Name` key is absent, `AssociatorInstances` posts exactly one
event: status `Failed` (zero instances, no partial results). -/
theorem associatorInstances_missing_key_fails :
    (∀ (ns : String) (h : MIInstanceHandle) (rc role resultRole : String)
        (ps : PropertySet) (ko : Bool) (fl : Option MI_Filter),
      X_SmallNumber_IsA h = true → h.Number.exists_ = false →
      AssociatorInstances ns h rc role resultRole ps ko fl =
        [Event.postResult MIResult.FAILED]) ∧
    (∀ (ns : String) (h : MIInstanceHandle) (rc role resultRole : String)
        (ps : PropertySet) (ko : Bool) (fl : Option MI_Filter),
      X_SmallNumber_IsA h = false → X_NumberWorld_IsA h = true →
      h.Name.exists_ = false →
      AssociatorInstances ns h rc role resultRole ps ko fl =
        [Event.postResult MIResult.FAILED]) := by
  constructor
  · intro ns h rc role resultRole ps ko fl hA hex
    simp [AssociatorInstances, AssocOfSmallNumber, toX_SmallNumber_Class, hA, hex]
  · intro ns h rc role resultRole ps ko fl hA hB hex
    simp [AssociatorInstances, AssocOfNumberWorld, toX_NumberWorld_Class,
      hA, hB, hex]

/-- Witness for C4: a SmallNumber handle and a NumberWorld handle, each with
its key attribute absent. -/
theorem associatorInstances_missing_key_fails_witness :
    (AssociatorInstances "" ⟨true, false, ⟨false, 0⟩, ⟨false, ""⟩⟩
        "" "" "" ⟨[]⟩ false none = [Event.postResult MIResult.FAILED])
    ∧ (AssociatorInstances "" ⟨false, true, ⟨false, 0⟩, ⟨false, ""⟩⟩
        "" "" "" ⟨[]⟩ false none = [Event.postResult MIResult.FAILED]) :=
  ⟨associatorInstances_missing_key_fails.1 "" ⟨true, false, ⟨false, 0⟩, ⟨false, ""⟩⟩
      "" "" "" ⟨[]⟩ false none rfl rfl,
   associatorInstances_missing_key_fails.2 "" ⟨false, true, ⟨false, 0⟩, ⟨false, ""⟩⟩
      "" "" "" ⟨[]⟩ false none rfl rfl rfl⟩

/-- C6: a predicate mismatch is not an error: on an EntityA handle with a
present even `Number`, and on an EntityB handle with a present `Name` other
than `"theWorld"`, `AssociatorInstances` posts zero instances and then `OK`. -/
theorem associatorInstances_no_match_posts_ok :
    (∀ (ns : String) (h : MIInstanceHandle) (rc role resultRole : String)
        (ps : PropertySet) (ko : Bool) (fl : Option MI_Filter),
      X_SmallNumber_IsA h = true → h.Number.exists_ = true →
      h.Number.value % 2 = 0 →
      AssociatorInstances ns h rc role resultRole ps ko fl =
        [Event.postResult MIResult.OK]) ∧
    (∀ (ns : String) (h : MIInstanceHandle) (rc role resultRole : String)
        (ps : PropertySet) (ko : Bool) (fl : Option MI_Filter),
      X_SmallNumber_IsA h = false → X_NumberWorld_IsA h = true →
      h.Name.exists_ = true → h.Name.value ≠ "theWorld" →
      AssociatorInstances ns h rc role resultRole ps ko fl =
        [Event.postResult MIResult.OK]) := by
  constructor
  · intro ns h rc role resultRole ps ko fl hA hex heven
    have hb : (h.Number.value % 2 == 1) = false := by
      rw [heven]
      rfl
    simp [AssociatorInstances, AssocOfSmallNumber, toX_SmallNumber_Class,
      hA, hex, hb]
  · intro ns h rc role resultRole ps ko fl hA hB hex hne
    have hb : (h.Name.value == "theWorld") = false := by
      simp [hne]
    simp [AssociatorInstances, AssocOfNumberWorld, toX_NumberWorld_Class,
      hA, hB, hex, hb]

/-- Witness for C6: an even `Number = 4` and the absent name `"otherWorld"`. -/
theorem associatorInstances_no_match_posts_ok_witness :
    (AssociatorInstances "" ⟨true, false, ⟨true, 4⟩, ⟨false, ""⟩⟩
        "" "" "" ⟨[]⟩ false none = [Event.postResult MIResult.OK])
    ∧ (AssociatorInstances "" ⟨false, true, ⟨false, 0⟩, ⟨true, "otherWorld"⟩⟩
        "" "" "" ⟨[]⟩ false none = [Event.postResult MIResult.OK]) :=
  ⟨associatorInstances_no_match_posts_ok.1 "" ⟨true, false, ⟨true, 4⟩, ⟨false, ""⟩⟩
      "" "" "" ⟨[]⟩ false none rfl rfl rfl,
   associatorInstances_no_match_posts_ok.2 ""
      ⟨false, true, ⟨false, 0⟩, ⟨true, "otherWorld"⟩⟩
      "" "" "" ⟨[]⟩ false none rfl rfl rfl (by decide)⟩

/-- C7: on a handle satisfying neither type predicate, `AssociatorInstances`
posts exactly one event: status `Failed` (zero instances). -/
theorem associatorInstances_unknown_type_fails
    (ns : String) (h : MIInstanceHandle) (rc role resultRole : String)
    (ps : PropertySet) (ko : Bool) (fl : Option MI_Filter)
    (h1 : X_SmallNumber_IsA h = false) (h2 : X_NumberWorld_IsA h = false) :
    AssociatorInstances ns h rc role resultRole ps ko fl =
      [Event.postResult MIResult.FAILED] := by
  simp [AssociatorInstances, h1, h2]

/-- Witness for C7 at a handle of neither known type. -/
theorem associatorInstances_unknown_type_fails_witness :
    AssociatorInstances "" ⟨false, false, ⟨true, 1⟩, ⟨true, "theWorld"⟩⟩
        "" "" "" ⟨[]⟩ false none = [Event.postResult MIResult.FAILED] :=
  associatorInstances_unknown_type_fails ""
    ⟨false, false, ⟨true, 1⟩, ⟨true, "theWorld"⟩⟩ "" "" "" ⟨[]⟩ false none rfl rfl

/-- C9: the dispatcher tests `X_SmallNumber_IsA` before `X_NumberWorld_IsA`:
on a handle satisfying both predicates, `AssociatorInstances` behaves exactly
as the EntityA-direction resolver on the SmallNumber view (the
EntityB-direction resolver is never consulted). -/
theorem associatorInstances_dispatch_smallNumber_first
    (ns : String) (h : MIInstanceHandle) (rc role resultRole : String)
    (ps : PropertySet) (ko : Bool) (fl : Option MI_Filter)
    (h1 : X_SmallNumber_IsA h = true) (h2 : X_NumberWorld_IsA h = true) :
    AssociatorInstances ns h rc role resultRole ps ko fl =
      AssocOfSmallNumber (toX_SmallNumber_Class h)
        rc role resultRole ps ko fl := by
  simp [AssociatorInstances, h1]

/-- Witness for C9: a handle satisfying both predicates, with both keys
present, dispatches to the EntityA direction. -/
theorem associatorInstances_dispatch_smallNumber_first_witness :
    X_SmallNumber_IsA ⟨true, true, ⟨true, 1⟩, ⟨true, "theWorld"⟩⟩ = true
    ∧ X_NumberWorld_IsA ⟨true, true, ⟨true, 1⟩, ⟨true, "theWorld"⟩⟩ = true
    ∧ AssociatorInstances "" ⟨true, true, ⟨true, 1⟩, ⟨true, "theWorld"⟩⟩
        "" "" "" ⟨[]⟩ false none =
      AssocOfSmallNumber
        (toX_SmallNumber_Class ⟨true, true, ⟨true, 1⟩, ⟨true, "theWorld"⟩⟩)
        "" "" "" ⟨[]⟩ false none :=
  ⟨rfl, rfl,
   associatorInstances_dispatch_smallNumber_first ""
     ⟨true, true, ⟨true, 1⟩, ⟨true, "theWorld"⟩⟩ "" "" "" ⟨[]⟩ false none rfl rfl⟩

/-- C10: the observable output of `AssociatorInstances` depends only on the
source handle, the role and the resultRole: the nameSpace, resultClass,
propertySet, keysOnly and filter arguments never influence it. -/
theorem associatorInstances_ignores_aux_params
    (h : MIInstanceHandle) (role resultRole : String)
    (ns1 rc1 : String) (ps1 : PropertySet) (ko1 : Bool) (fl1 : Option MI_Filter)
    (ns2 rc2 : String) (ps2 : PropertySet) (ko2 : Bool) (fl2 : Option MI_Filter) :
    AssociatorInstances ns1 h rc1 role resultRole ps1 ko1 fl1 =
      AssociatorInstances ns2 h rc2 role resultRole ps2 ko2 fl2 := rfl

lemma streams_append_status (pre : List Event) (r : MIResult)
    (hpre : ∀ e ∈ pre, isInstancePost e = true) :
    StreamsThenTerminates (pre ++ [Event.postResult r]) :=
  ⟨pre, r, rfl, hpre⟩

lemma streams_single_status (r : MIResult) :
    StreamsThenTerminates [Event.postResult r] :=
  ⟨[], r, rfl, by simp⟩

lemma assocOfSmallNumber_streams (inst : X_SmallNumber_Class)
    (rc role resultRole : String) (ps : PropertySet) (ko : Bool)
    (fl : Option MI_Filter) :
    StreamsThenTerminates (AssocOfSmallNumber inst rc role resultRole ps ko fl) := by
  unfold AssocOfSmallNumber
  cases hex : inst.Number.exists_ with
  | false =>
      simp only [hex, Bool.not_false, if_true]
      exact streams_single_status _
  | true =>
      simp only [hex, Bool.not_true, Bool.false_eq_true, if_false]
      refine streams_append_status _ _ ?_
      intro e he
      split at he
      · rw [List.mem_singleton] at he
        subst he
        rfl
      · simp at he

lemma assocOfNumberWorld_streams (inst : X_NumberWorld_Class)
    (rc role resultRole : String) (ps : PropertySet) (ko : Bool)
    (fl : Option MI_Filter) :
    StreamsThenTerminates (AssocOfNumberWorld inst rc role resultRole ps ko fl) := by
  unfold AssocOfNumberWorld
  cases hex : inst.Name.exists_ with
  | false =>
      simp only [hex, Bool.not_false, if_true]
      exact streams_single_status _
  | true =>
      simp only [hex, Bool.not_true, Bool.false_eq_true, if_false]
      refine streams_append_status _ _ ?_
      intro e he
      split at he
      · rw [List.mem_filterMap] at he
        obtain ⟨a, _, hfa⟩ := he
        split at hfa
        · exact absurd hfa (by simp)
        · rw [Option.some_inj] at hfa
          subst hfa
          rfl
      · simp at he

lemma associatorInstances_streams (ns : String) (h : MIInstanceHandle)
    (rc role resultRole : String) (ps : PropertySet) (ko : Bool)
    (fl : Option MI_Filter) :
    StreamsThenTerminates (AssociatorInstances ns h rc role resultRole ps ko fl) := by
  unfold AssociatorInstances
  split
  · exact assocOfSmallNumber_streams _ _ _ _ _ _ _
  · split
    · exact assocOfNumberWorld_streams _ _ _ _ _ _ _
    · exact streams_single_status _

/-- C3: every operation of the provider — the six stubs, `AssociatorInstances`
on any handle, and `Load`/`Unload` — produces zero or more instance posts
followed by exactly one status post, which is the last event: no instance is
posted after the status. -/
theorem provider_posts_one_status_last :
    (∀ (ns : String) (ps : PropertySet) (ko : Bool) (fl : Option MI_Filter),
      StreamsThenTerminates (EnumerateInstances ns ps ko fl)) ∧
    (∀ (ns : String) (ref : X_OddSmallNumbers_Class) (ps : PropertySet),
      StreamsThenTerminates (GetInstance ns ref ps)) ∧
    (∀ (ns : String) (ni : X_OddSmallNumbers_Class),
      StreamsThenTerminates (CreateInstance ns ni)) ∧
    (∀ (ns : String) (ni : X_OddSmallNumbers_Class) (ps : PropertySet),
      StreamsThenTerminates (ModifyInstance ns ni ps)) ∧
    (∀ (ns : String) (ref : X_OddSmallNumbers_Class),
      StreamsThenTerminates (DeleteInstance ns ref)) ∧
    (∀ (ns : String) (h : MIInstanceHandle) (role : String) (ps : PropertySet)
        (ko : Bool) (fl : Option MI_Filter),
      StreamsThenTerminates (ReferenceInstances ns h role ps ko fl)) ∧
    (∀ (ns : String) (h : MIInstanceHandle) (rc role resultRole : String)
        (ps : PropertySet) (ko : Bool) (fl : Option MI_Filter),
      StreamsThenTerminates (AssociatorInstances ns h rc role resultRole ps ko fl)) ∧
    StreamsThenTerminates Load ∧
    StreamsThenTerminates Unload :=
  ⟨fun _ _ _ _ => streams_single_status _,
   fun _ _ _ => streams_single_status _,
   fun _ _ => streams_single_status _,
   fun _ _ _ => streams_single_status _,
   fun _ _ => streams_single_status _,
   fun _ _ _ _ _ _ => streams_single_status _,
   fun ns h rc role resultRole ps ko fl =>
     associatorInstances_streams ns h rc role resultRole ps ko fl,
   streams_single_status _,
   streams_single_status _⟩

/-- C8: each of the six unimplemented operations posts exactly one event,
status `NotSupported`, for any arguments; `Load` and `Unload` post exactly one
event, status `OK`. -/
theorem stubs_not_supported_lifecycle_ok :
    (∀ (ns : String) (ps : PropertySet) (ko : Bool) (fl : Option MI_Filter),
      EnumerateInstances ns ps ko fl =
        [Event.postResult MIResult.NOT_SUPPORTED]) ∧
    (∀ (ns : String) (ref : X_OddSmallNumbers_Class) (ps : PropertySet),
      GetInstance ns ref ps = [Event.postResult MIResult.NOT_SUPPORTED]) ∧
    (∀ (ns : String) (ni : X_OddSmallNumbers_Class),
      CreateInstance ns ni = [Event.postResult MIResult.NOT_SUPPORTED]) ∧
    (∀ (ns : String) (ni : X_OddSmallNumbers_Class) (ps : PropertySet),
      ModifyInstance ns ni ps = [Event.postResult MIResult.NOT_SUPPORTED]) ∧
    (∀ (ns : String) (ref : X_OddSmallNumbers_Class),
      DeleteInstance ns ref = [Event.postResult MIResult.NOT_SUPPORTED]) ∧
    (∀ (ns : String) (h : MIInstanceHandle) (role : String) (ps : PropertySet)
        (ko : Bool) (fl : Option MI_Filter),
      ReferenceInstances ns h role ps ko fl =
        [Event.postResult MIResult.NOT_SUPPORTED]) ∧
    Load = [Event.postResult MIResult.OK] ∧
    Unload = [Event.postResult MIResult.OK] :=
  ⟨fun _ _ _ _ => rfl, fun _ _ _ => rfl, fun _ _ => rfl, fun _ _ _ => rfl,
   fun _ _ => rfl, fun _ _ _ _ _ _ => rfl, rfl, rfl⟩
